import Mathlib

/-!
Verification of the relay-and-orchestration layer of the lawyer.ai repository:
a public gateway (`src/main.py`) forwarding question-answering and
contract-generation requests to a GPU backend (`src/server.py`).

The embedding is shallow: each HTTP handler becomes a total Lean function of
its declared inputs plus explicit oracles for the outside world (the outbound
HTTP transport, the retrieval / synthesis / rendering collaborators, the
filesystem).  JSON values are modelled by the inductive `JValue`; the list of
outbound calls a gateway handler performs is returned alongside its response,
so "zero backend calls" and "exactly one backend call" are plain facts about
that list.  A Python exception raised by a collaborator is modelled by the
`Except`/`Outcome` error constructors; a handler catching an exception class
corresponds to the Lean function matching on that constructor and producing a
value, so totality of the Lean definition mirrors "no exception escapes the
handler".
-/

namespace LawyerAi

/-- A JSON value, as produced and consumed by the two FastAPI services.
Numeric leaves (relevance scores) are carried as opaque strings because every
handler under verification only passes them through, never computes on them. -/
inductive JValue where
  | str (s : String)
  | arr (xs : List JValue)
  | obj (fields : List (String × JValue))


/-- Whether a JSON value is an object carrying the given top-level key. -/
def JValue.hasField : JValue → String → Bool
  | .obj fields, k => fields.any (fun f => f.1 = k)
  | _, _ => false

/-- The uniform error envelope test: a JSON object with an "error" field. -/
def isErrorEnvelope (v : JValue) : Bool := v.hasField "error"

/-- One outbound HTTP POST issued by the gateway: target URL and JSON payload. -/
structure Call where
  url : String
  payload : JValue


/-- A reply the outbound transport produced: HTTP status, raw body text, and
the body parsed as JSON when it is valid JSON (`response.json()` in the
source; `json = none` models a body that is not valid JSON, in which case
`response.json()` raises `requests.exceptions.JSONDecodeError`, a subclass of
`requests.exceptions.RequestException`). -/
structure BackendReply where
  status : Nat
  text : String
  json : Option JValue


/-- Outcome of one outbound HTTP call: either a reply came back, or the
`requests` call raised a `RequestException` (connection refused, timeout,
DNS failure, ...). -/
inductive Outcome where
  | reply (r : BackendReply)
  | netErr (msg : String)

/-- The outbound HTTP transport, as seen by one gateway handler. -/
def Transport : Type := Call → Outcome

/-- Auxiliary for `pyStrip`: drop leading whitespace characters. -/
def dropWhileWS : List Char → List Char
  | [] => []
  | c :: cs => if c.isWhitespace then dropWhileWS cs else c :: cs

/-- Python `str.strip()`: remove leading and trailing whitespace.  Defined
structurally over the string's character list so concrete instances evaluate
by `decide`/`rfl`. -/
def pyStrip (s : String) : String :=
  ⟨(dropWhileWS (dropWhileWS s.data).reverse).reverse⟩

/-- Auxiliary for `pyStartsWith`: list-level pattern test. -/
def startsWithChars : List Char → List Char → Bool
  | [], _ => true
  | _ :: _, [] => false
  | p :: ps, c :: cs => p = c && startsWithChars ps cs

/-- Python `s.startswith(pre)`, structurally over character lists. -/
def pyStartsWith (s pre : String) : Bool :=
  startsWithChars pre.data s.data

/-- Backend-address resolution, `src/main.py` lines 41-47:
`LOCAL_GPU_SERVER = os.getenv("LOCAL_GPU_SERVER", "").strip()`, then
`http://` is prepended when the non-empty value lacks a scheme. -/
def resolveBackend (raw : String) : String :=
  let s := pyStrip raw
  if s = "" then ""
  else if pyStartsWith s "http://" || pyStartsWith s "https://" then s
  else "http://" ++ s

/-- Request body of the gateway routes `/ask` and (backend) `/gpu_ask`. -/
structure QueryRequest where
  question : String


/-- Request body of the gateway route `/generate-document`
(`src/main.py` lines 60-65). -/
structure ContractRequest where
  contract_type : String
  party_a : String
  party_b : String
  contract_date : String
  additional_info : String := ""


/-- Gateway handler `ask_question`, `src/main.py` lines 75-103, as a function
of the resolved backend address, the outbound transport, and the question.
Returns the JSON response body together with the list of outbound calls made. -/
def ask_question (LOCAL_GPU_SERVER : String) (backend : Transport)
    (question : String) : JValue × List Call :=
  let user_query := pyStrip question
  if user_query = "" then
    (.obj [("error", .str "질문을 입력하세요.")], [])
  else if LOCAL_GPU_SERVER = "" then
    (.obj [("error", .str "서버 설정 오류: LOCAL_GPU_SERVER 환경 변수가 없습니다.")], [])
  else
    let target_url := LOCAL_GPU_SERVER ++ "/gpu_ask"
    let call : Call := ⟨target_url, .obj [("question", .str user_query)]⟩
    match backend call with
    | .reply r =>
        if r.status = 200 then
          match r.json with
          | some j => (j, [call])
          | none =>
              (.obj [("error", .str "로컬 GPU 서버 요청 실패: JSONDecodeError")], [call])
        else
          (.obj [("error", .str ("로컬 GPU 서버 오류: " ++ toString r.status)),
                 ("details", .str r.text)], [call])
    | .netErr e =>
        (.obj [("error", .str ("로컬 GPU 서버 요청 실패: " ++ e))], [call])

/-- The gateway's own public address as `src/main.py` line 118 computes it:
`os.getenv("SERVER_URL", "http://localhost:8000")`. -/
def gatewayPublicAddress (SERVER_URL_env : Option String) : String :=
  SERVER_URL_env.getD "http://localhost:8000"

/-- The payload `request_data` that `generate_document` forwards,
`src/main.py` lines 117-118: the contract fields of the inbound request plus
the gateway's own public address under the key `server_url`. -/
def contractPayload (r : ContractRequest) (SERVER_URL_env : Option String) : JValue :=
  .obj [("contract_type", .str r.contract_type),
        ("party_a", .str r.party_a),
        ("party_b", .str r.party_b),
        ("contract_date", .str r.contract_date),
        ("additional_info", .str r.additional_info),
        ("server_url", .str (gatewayPublicAddress SERVER_URL_env))]

/-- Gateway handler `generate_document`, `src/main.py` lines 106-131. -/
def generate_document (LOCAL_GPU_SERVER : String) (SERVER_URL_env : Option String)
    (backend : Transport) (request : ContractRequest) : JValue × List Call :=
  if LOCAL_GPU_SERVER = "" then
    (.obj [("error", .str "서버 설정 오류: LOCAL_GPU_SERVER 환경 변수가 없습니다.")], [])
  else
    let call : Call := ⟨LOCAL_GPU_SERVER ++ "/generate-document",
                        contractPayload request SERVER_URL_env⟩
    match backend call with
    | .reply r =>
        if r.status = 200 then
          match r.json with
          | some j => (j, [call])
          | none => (.obj [("error", .str "문서 생성 요청 실패: JSONDecodeError")], [call])
        else
          (.obj [("error", .str ("문서 생성 오류: " ++ toString r.status)),
                 ("details", .str r.text)], [call])
    | .netErr e =>
        (.obj [("error", .str ("문서 생성 요청 실패: " ++ e))], [call])

/-- What the startup handshake logged, `src/main.py` lines 141-146: success on
HTTP 200, the status code on any other status, the exception message when the
`requests` call raised; `skipped` when `LOCAL_GPU_SERVER` is empty so the
handshake body never runs. -/
inductive StartupLog where
  | success
  | httpFail (code : Nat)
  | exnFail (msg : String)
  | skipped


/-- Gateway startup handler `startup_event`, `src/main.py` lines 134-146: when
the resolved backend address is non-empty, POST the resolved backend address
itself (`json=LOCAL_GPU_SERVER`) to `{LOCAL_GPU_SERVER}/set-server-url`; every
failure is caught and logged.  The result is the list of calls issued and the
log entry, so the handler is total for every transport behaviour. -/
def startup_event (LOCAL_GPU_SERVER : String) (backend : Transport) :
    List Call × StartupLog :=
  if LOCAL_GPU_SERVER = "" then ([], .skipped)
  else
    let call : Call := ⟨LOCAL_GPU_SERVER ++ "/set-server-url", .str LOCAL_GPU_SERVER⟩
    match backend call with
    | .reply r => ([call], if r.status = 200 then .success else .httpFail r.status)
    | .netErr e => ([call], .exnFail e)

/-! ## Backend (`src/server.py`) -/

/-- Bytes of a stored file; a filesystem maps a path to the bytes stored
there, `none` when no file exists at that path. -/
def FileSystem : Type := String → Option (List Nat)

/-- An HTTP response the backend produces: a JSON response with an explicit
status (FastAPI `JSONResponse`; status 200 when the source omits
`status_code`), a `FileResponse` serving the exact bytes of a stored file
with the given media type and client-facing file name, or a plain-text
response (the form Starlette's `StaticFiles` uses for its 404). -/
inductive HResponse where
  | json (status : Nat) (body : JValue)
  | file (bytes : List Nat) (media_type : String) (filename : String)
  | text (status : Nat) (body : String)

/-- Mutable process-wide state of the backend: the registered public address
(`SERVER_URL`, `src/server.py` line 58, initially `None`) and the document
store on disk. -/
structure BackendState where
  SERVER_URL : Option String
  fs : FileSystem

/-- Backend handler `set_server_url`, `src/server.py` lines 61-69: strip the
received address, prepend `http://` when it lacks a scheme, store it in the
global, acknowledge with a message object. -/
def set_server_url (st : BackendState) (server_url : String) :
    BackendState × HResponse :=
  let s := pyStrip server_url
  let s := if pyStartsWith s "http://" || pyStartsWith s "https://" then s
           else "http://" ++ s
  ({ st with SERVER_URL := some s },
   .json 200 (.obj [("message", .str "SERVER_URL이 성공적으로 설정되었습니다.")]))

/-- Result of `get_relevant_docs` (the out-of-scope `search` collaborator):
the four parallel lists the backend destructures at `src/server.py` line 84.
Scores are opaque strings (pass-through only). -/
structure RetrievalResult where
  relevant_docs : List String
  sources : List String
  scores : List String
  law_numbers : List String

/-- The retrieval collaborator: either a result or a raised exception. -/
def Retriever : Type := String → Except String RetrievalResult

/-- The synthesis collaborator `generate_answer(query, docs, sources, scores)`:
either an answer string (empty models a falsy result) or a raised exception. -/
def Synthesizer : Type :=
  String → List String → List String → List String → Except String String

/-- Truncating three-way zip, as Python `zip(law_numbers, sources, scores)`. -/
def zip3 : List String → List String → List String → List (String × String × String)
  | a :: as, b :: bs, c :: cs => (a, b, c) :: zip3 as bs cs
  | _, _, _ => []

/-- The source entries of a successful `/gpu_ask` response,
`src/server.py` lines 104-107. -/
def sourceEntries (laws sources scores : List String) : List JValue :=
  (zip3 laws sources scores).map fun e =>
    .obj [("law_number", .str e.1), ("source", .str e.2.1), ("score", .str e.2.2)]

/-- Backend handler `gpu_ask`, `src/server.py` lines 71-112: validate the
question, retrieve, synthesize; every collaborator exception is caught by the
enclosing `try`/`except` and converted to a 500 error envelope. -/
def gpu_ask (retrieve : Retriever) (synthesize : Synthesizer)
    (question : String) : HResponse :=
  let user_query := pyStrip question
  if user_query = "" then
    .json 400 (.obj [("error", .str "질문을 입력하세요.")])
  else
    match retrieve user_query with
    | .error e => .json 500 (.obj [("error", .str ("서버 내부 오류: " ++ e))])
    | .ok res =>
        if res.relevant_docs = [] then
          .json 200 (.obj [("answer", .str "📌 참고할 법률 데이터를 찾을 수 없습니다."),
                           ("sources", .arr [])])
        else
          match synthesize user_query res.relevant_docs res.sources res.scores with
          | .error e => .json 500 (.obj [("error", .str ("서버 내부 오류: " ++ e))])
          | .ok response =>
              if response = "" then
                .json 500 (.obj [("error", .str "AI 모델이 유효한 답변을 생성하지 못했습니다.")])
              else
                .json 200 (.obj [("answer", .str response),
                                 ("sources", .arr (sourceEntries res.law_numbers res.sources res.scores))])

/-- Modelled from the spec: `get_document_path` comes from the out-of-scope
`doc_create` rendering module (not under `src/`); per the spec it maps a
client-facing file name to its location under the canonical document-storage
root ("a document-storage directory holding generated PDFs, addressed by
file name"). -/
def get_document_path (file_name : String) : String :=
  "document/" ++ file_name

/-- Auxiliary for `basename`: scan the characters, restarting the accumulated
component at every slash. -/
def basenameGo : List Char → List Char → List Char
  | [], acc => acc.reverse
  | c :: cs, acc => if c = '/' then basenameGo cs [] else basenameGo cs (c :: acc)

/-- `os.path.basename`: the part of a path after its final slash. -/
def basename (p : String) : String :=
  ⟨basenameGo p.data []⟩

/-- The rendering collaborator `create_contract_pdf(contract_type, party_a,
party_b, contract_date, additional_info)`: either the working path of the
produced PDF, or a raised exception. -/
def Renderer : Type :=
  String → String → String → String → String → Except String String

/-- `shutil.move` over the modelled filesystem: either the filesystem after
the move, or a raised exception (permission, disk full, ...). -/
def Mover : Type := FileSystem → String → String → Except String FileSystem

/-- Request body of the backend route `/generate-document`,
`src/server.py` lines 115-121: the gateway's contract fields plus the
required `server_url` field carrying the caller's address. -/
structure SContractRequest where
  contract_type : String
  party_a : String
  party_b : String
  contract_date : String
  additional_info : String := ""
  server_url : String

/-- Backend handler `generate_contract`, `src/server.py` lines 123-149:
render the PDF, move it under the document root, and build `download_link`
from `data.server_url` — the address carried by the request itself — plus
`/document/` and the file name.  Any exception inside the `try` block is
converted to a 500 error envelope.  The registered global `SERVER_URL` is not
consulted anywhere in the handler. -/
def generate_contract (render : Renderer) (move : Mover)
    (st : BackendState) (data : SContractRequest) : BackendState × HResponse :=
  match render data.contract_type data.party_a data.party_b data.contract_date
        data.additional_info with
  | .error e => (st, .json 500 (.obj [("error", .str ("서버 내부 오류: " ++ e))]))
  | .ok pdf_path =>
      let file_name := basename pdf_path
      let new_pdf_path := get_document_path file_name
      match move st.fs pdf_path new_pdf_path with
      | .error e => (st, .json 500 (.obj [("error", .str ("서버 내부 오류: " ++ e))]))
      | .ok fs' =>
          let download_link := data.server_url ++ "/document/" ++ file_name
          ({ st with fs := fs' },
           .json 200 (.obj [("message", .str "문서가 생성되었습니다."),
                            ("download_link", .str download_link)]))

/-- Backend handler `download_file`, `src/server.py` lines 151-159: look the
name up under the document root; 404 error envelope when absent, otherwise a
`FileResponse` of the stored bytes with media type `application/pdf`.
In the assembled app this route is shadowed: the `StaticFiles` mount at
`/document` (line 50) is registered first and matches every path under the
prefix, so requests never reach this handler — see `app_get_document`. -/
def download_file (st : BackendState) (file_name : String) : HResponse :=
  let file_path := get_document_path file_name
  match st.fs file_path with
  | none => .json 404 (.obj [("error", .str "파일이 존재하지 않습니다.")])
  | some bytes => .file bytes "application/pdf" file_name

/-! ## Progress streamer (modelled from the spec) -/

/-- One event the gateway emits to its client in streaming mode: a server-sent
`data: ...` event relaying one backend line, or stream closure (normal on
backend HTTP 200, or carrying a terminal failure reason). -/
inductive SEvent where
  | data (line : String)
  | closeOk
  | closeFail (reason : String)

/-- Modelled from the spec: the Progress Streamer (spec 4.4) — no streaming
code is present under `src/`; only the canonical design is specified.  Each
backend line is relayed as one `data: ...` event as soon as it arrives (the
fold is per-line, no whole-payload accumulation); when the backend stream ends
with HTTP 200 the gateway closes the stream normally, otherwise it emits a
single terminal failure event and closes. -/
def stream_relay (backendLines : List String) (finalStatus : Nat) : List SEvent :=
  let rec go : List String → List SEvent
    | [] => if finalStatus = 200 then [.closeOk]
            else [.closeFail ("stream ended with status " ++ toString finalStatus)]
    | l :: rest => .data l :: go rest
  go backendLines

/-! ## Backend endpoint layer

Each route as a transition on the process-wide `BackendState`: the handlers
`gpu_ask` and `download_file` read no global and write none, so their endpoint
form returns the state unchanged, exactly as the source handlers do. -/

/-- Endpoint `/set-server-url`. -/
def ep_set_server_url (st : BackendState) (url : String) : BackendState × HResponse :=
  set_server_url st url

/-- Endpoint `/gpu_ask` (reads and writes no process-wide state). -/
def ep_gpu_ask (retrieve : Retriever) (synthesize : Synthesizer)
    (st : BackendState) (q : String) : BackendState × HResponse :=
  (st, gpu_ask retrieve synthesize q)

/-- Endpoint `/generate-document` (backend side). -/
def ep_generate_contract (render : Renderer) (move : Mover)
    (st : BackendState) (data : SContractRequest) : BackendState × HResponse :=
  generate_contract render move st data

/-- The `download_file` handler in endpoint form over the process state: it
reads the document store and writes nothing.  In the assembled app the
`StaticFiles` mount shadows the route this handler was registered for (see
`app_get_document`); the handler is still the code under `src/`, and its
state-independence is what the `/set-server-url` frame property needs —
which holds equally of the mount, since `StaticFiles` too reads only the
document store. -/
def ep_download_file (st : BackendState) (file_name : String) :
    BackendState × HResponse :=
  (st, download_file st file_name)

/-! ## The `/document` static mount and route dispatch

`src/server.py` registers two handlers under the `/document` path prefix: the
`StaticFiles` mount over the document root (line 50) and the
`download_file` route (line 151).  Starlette dispatches each request to the
first registered entry whose path matches, and a mount matches every path
under its prefix, so the mount — registered first — handles every
`GET /document/...` request and the route never runs. -/

/-- Python `s.endswith(suf)`, structurally over reversed character lists. -/
def pyEndsWith (s suf : String) : Bool :=
  startsWithChars suf.data.reverse s.data.reverse

/-- Media type Starlette guesses from a served file's name
(`mimetypes.guess_type`): `application/pdf` for `.pdf` names, the
`text/plain` fallback otherwise (only the `.pdf` case arises for the PDFs
the pipeline stores). -/
def guessMediaType (name : String) : String :=
  if pyEndsWith name ".pdf" then "application/pdf" else "text/plain"

/-- Modelled from Starlette's `StaticFiles` application (a framework
collaborator, not repository code), as the mount at `src/server.py` line 50
configures it over the document root: a missing file is answered 404 with
the plain-text body "Not Found" — not a JSON object, so it carries no
`error` field; a present file is served as its exact bytes with the media
type guessed from the file name. -/
def staticFiles_document (fs : FileSystem) (file_name : String) : HResponse :=
  match fs (get_document_path file_name) with
  | none => .text 404 "Not Found"
  | some bytes => .file bytes (guessMediaType file_name) file_name

/-- `GET /document/(file_name)` as the assembled app of `src/server.py`
answers it: first-match dispatch selects the `StaticFiles` mount (registered
at line 50, before the line-151 route), so the mount serves the request and
`download_file` is unreachable. -/
def app_get_document (st : BackendState) (file_name : String) : HResponse :=
  staticFiles_document st.fs file_name

/-- Whether a response is a JSON object carrying an `error` field. -/
def isJsonErrorResponse : HResponse → Bool
  | .json _ b => isErrorEnvelope b
  | _ => false

/-! ## Claims -/

/-- Claim C3: in streaming mode, a backend stream of N lines ending with
HTTP 200 is relayed as exactly N server-sent `data: ...` events, one per
backend line, in the order received, followed by stream closure.  The relay
is the line-by-line fold `stream_relay`, so no whole-payload buffering occurs;
the equality below pins the events to the FIFO image of the backend lines. -/
theorem stream_relay_ok_fifo (backendLines : List String) :
    stream_relay backendLines 200 =
      backendLines.map SEvent.data ++ [SEvent.closeOk] ∧
    (stream_relay backendLines 200).length = backendLines.length + 1 := by
  have h : ∀ ls : List String,
      stream_relay.go 200 ls = ls.map SEvent.data ++ [SEvent.closeOk] := by
    intro ls
    induction ls with
    | nil => rfl
    | cons l rest ih => simpa [stream_relay.go] using ih
  refine ⟨h backendLines, ?_⟩
  rw [stream_relay, h backendLines]
  simp

/-- Claim C6: backend-address resolution.  An empty configured value resolves
to the empty address, and with it both forwarding routes return the
configuration-error envelope and make zero outbound calls; a non-empty value
without an `http://`/`https://` scheme gets `http://` prepended exactly once;
an already-qualified value passes through unchanged (modulo the `strip()` the
source applies first). -/
theorem backend_address_resolution (raw : String) :
    (pyStrip raw = "" →
      resolveBackend raw = "" ∧
      (∀ backend q, (ask_question (resolveBackend raw) backend q).2 = []) ∧
      (∀ backend q, pyStrip q ≠ "" → (ask_question (resolveBackend raw) backend q).1 =
        .obj [("error", .str "서버 설정 오류: LOCAL_GPU_SERVER 환경 변수가 없습니다.")]) ∧
      (∀ env backend r, generate_document (resolveBackend raw) env backend r =
        (.obj [("error", .str "서버 설정 오류: LOCAL_GPU_SERVER 환경 변수가 없습니다.")], []))) ∧
    (pyStrip raw ≠ "" →
      (pyStartsWith (pyStrip raw) "http://" || pyStartsWith (pyStrip raw) "https://") = false →
      resolveBackend raw = "http://" ++ pyStrip raw) ∧
    ((pyStartsWith (pyStrip raw) "http://" || pyStartsWith (pyStrip raw) "https://") = true →
      resolveBackend raw = pyStrip raw) := by
  refine ⟨?_, ?_, ?_⟩
  · intro h
    have hres : resolveBackend raw = "" := by simp [resolveBackend, h]
    refine ⟨hres, ?_, ?_, ?_⟩
    · intro backend q
      rw [hres]
      by_cases hq : pyStrip q = "" <;> simp [ask_question, hq]
    · intro backend q hq
      rw [hres]
      simp [ask_question, hq]
    · intro env backend r
      rw [hres]
      simp [generate_document]
  · intro h hs
    simp [resolveBackend, h, hs]
  · intro hs
    have hne : pyStrip raw ≠ "" := by
      intro he
      rw [he] at hs
      exact absurd hs (by decide)
    simp [resolveBackend, hne, hs]

/-- Concrete instance of `backend_address_resolution`: a whitespace-only
configuration resolves empty and `/generate-document` short-circuits with the
configuration error and zero calls; a scheme-less address gets `http://`
prepended; a qualified address passes through. -/
theorem backend_address_resolution_witness :
    resolveBackend "   " = "" ∧
    generate_document (resolveBackend "   ") none (fun _ => .netErr "down")
        ⟨"lease", "Alice", "Bob", "2024-01-01", ""⟩ =
      (.obj [("error", .str "서버 설정 오류: LOCAL_GPU_SERVER 환경 변수가 없습니다.")], []) ∧
    resolveBackend "gpu.example:5000" = "http://gpu.example:5000" ∧
    resolveBackend "https://gpu.example" = "https://gpu.example" := by
  refine ⟨((backend_address_resolution "   ").1 (by decide)).1,
          ((backend_address_resolution "   ").1 (by decide)).2.2.2 none _ _, ?_, ?_⟩
  · have h := (backend_address_resolution "gpu.example:5000").2.1 (by decide) (by decide)
    rw [h]
    decide
  · exact (backend_address_resolution "https://gpu.example").2.2 (by decide)

/-- Claim C5: for every question that is non-empty after trimming (and a
resolved backend address), `/ask` issues exactly one POST, to the backend
address's `/gpu_ask` path, whose body carries the trimmed question; and when
that call returns HTTP 200 with a JSON body, the gateway's response body is
the backend's JSON body unchanged. -/
theorem ask_forwards_trimmed_question (gpu : String) (backend : Transport)
    (q : String) (hg : gpu ≠ "") (hq : pyStrip q ≠ "") :
    (ask_question gpu backend q).2 =
      [⟨gpu ++ "/gpu_ask", .obj [("question", .str (pyStrip q))]⟩] ∧
    ∀ r j, backend ⟨gpu ++ "/gpu_ask", .obj [("question", .str (pyStrip q))]⟩ = .reply r →
      r.status = 200 → r.json = some j →
      (ask_question gpu backend q).1 = j := by
  constructor
  · rw [ask_question]
    simp only [hq, hg, if_neg, if_false, ite_false]
    cases hb : backend ⟨gpu ++ "/gpu_ask", .obj [("question", .str (pyStrip q))]⟩ with
    | reply r =>
        by_cases hs : r.status = 200
        · cases hj : r.json <;> simp [hs, hj]
        · simp [hs]
    | netErr e => simp
  · intro r j hb hs hj
    rw [ask_question]
    simp only [hq, hg, if_neg, if_false, ite_false]
    rw [hb]
    simp [hs, hj]

/-- Concrete instance of `ask_forwards_trimmed_question`: question `" 상속 "`
against a stub backend replying 200 with a JSON body. -/
theorem ask_forwards_trimmed_question_witness :
    (ask_question "http://gpu.example"
        (fun _ => .reply ⟨200, "", some (.obj [("answer", .str "ok"), ("sources", .arr [])])⟩)
        " 상속 ").2 =
      [⟨"http://gpu.example/gpu_ask", .obj [("question", .str "상속")]⟩] ∧
    (ask_question "http://gpu.example"
        (fun _ => .reply ⟨200, "", some (.obj [("answer", .str "ok"), ("sources", .arr [])])⟩)
        " 상속 ").1 = .obj [("answer", .str "ok"), ("sources", .arr [])] := by
  have h := ask_forwards_trimmed_question "http://gpu.example"
    (fun _ => .reply ⟨200, "", some (.obj [("answer", .str "ok"), ("sources", .arr [])])⟩)
    " 상속 " (by decide) (by decide)
  refine ⟨by simpa using h.1, ?_⟩
  have := h.2 ⟨200, "", some (.obj [("answer", .str "ok"), ("sources", .arr [])])⟩
    (.obj [("answer", .str "ok"), ("sources", .arr [])]) rfl rfl rfl
  simpa using this

/-- Counterexample to claim C4 as stated: a `/generate-document` request whose
required contract fields are all blank, with a configured backend address, is
not short-circuited — the gateway issues one outbound backend call carrying
the blank fields (`generate_document` performs no field validation). -/
theorem blank_contract_forwarded_counterexample :
    (generate_document "http://gpu.example" none
        (fun _ => .reply ⟨200, "", some (.obj [])⟩) ⟨"", "", "", "", ""⟩).2 =
      [⟨"http://gpu.example/generate-document",
        .obj [("contract_type", .str ""), ("party_a", .str ""), ("party_b", .str ""),
              ("contract_date", .str ""), ("additional_info", .str ""),
              ("server_url", .str "http://localhost:8000")]⟩] := by
  rfl

/-- Claim C4 (amended): `/ask` short-circuits an empty or whitespace-only
question with a structured error object and zero backend calls; but
`/generate-document` performs no blank-field validation — with a configured
backend address it always issues exactly one backend call, forwarding the
contract fields (blank or not) unchanged. -/
theorem blank_input_validation (gpu : String) (backend : Transport) (q : String)
    (env : Option String) (r : ContractRequest) (hq : pyStrip q = "")
    (hg : gpu ≠ "") :
    ask_question gpu backend q = (.obj [("error", .str "질문을 입력하세요.")], []) ∧
    (generate_document gpu env backend r).2 =
      [⟨gpu ++ "/generate-document", contractPayload r env⟩] := by
  constructor
  · simp [ask_question, hq]
  · rw [generate_document]
    simp only [hg, if_neg, if_false, ite_false]
    cases hb : backend ⟨gpu ++ "/generate-document", contractPayload r env⟩ with
    | reply rep =>
        by_cases hs : rep.status = 200
        · cases hj : rep.json <;> simp [hs, hj]
        · simp [hs]
    | netErr e => simp

/-- Concrete instance of `blank_input_validation`: a whitespace question is
rejected with zero calls; a blank contract is forwarded in one call. -/
theorem blank_input_validation_witness :
    ask_question "http://gpu.example" (fun _ => .netErr "down") "  " =
      (.obj [("error", .str "질문을 입력하세요.")], []) ∧
    (generate_document "http://gpu.example" none (fun _ => .netErr "down")
        ⟨"", "", "", "", ""⟩).2 =
      [⟨"http://gpu.example/generate-document",
        contractPayload ⟨"", "", "", "", ""⟩ none⟩] :=
  blank_input_validation "http://gpu.example" (fun _ => .netErr "down") "  "
    none ⟨"", "", "", "", ""⟩ (by decide) (by decide)

/-- Counterexample to claim C2 as stated: the startup handshake's payload is
the resolved backend address itself (`json=LOCAL_GPU_SERVER`,
`src/main.py` line 140), not the gateway's own resolved public address
(`os.getenv("SERVER_URL", "http://localhost:8000")`, line 118).  With backend
address `http://gpu.example` and the gateway's `SERVER_URL` unset, the single
registration call carries `http://gpu.example` while the gateway's own
address is `http://localhost:8000`. -/
theorem startup_payload_counterexample :
    (startup_event "http://gpu.example" (fun _ => .reply ⟨200, "", none⟩)).1 =
      [⟨"http://gpu.example/set-server-url", .str "http://gpu.example"⟩] ∧
    gatewayPublicAddress none = "http://localhost:8000" ∧
    ("http://gpu.example" : String) ≠ "http://localhost:8000" :=
  ⟨rfl, rfl, by decide⟩

/-- Claim C2 (amended): on gateway startup with a non-empty resolved backend
address, exactly one registration request is issued to the backend's
`/set-server-url` endpoint and its payload is the resolved backend address
itself (not the gateway's own public address); every failure — non-200 status
or a raised exception — becomes a log entry and the handler still returns
(non-fatal), and with an empty backend address no registration request is
issued. -/
theorem startup_registration (gpu : String) (backend : Transport) (hg : gpu ≠ "") :
    (startup_event gpu backend).1 = [⟨gpu ++ "/set-server-url", .str gpu⟩] ∧
    (∀ r, backend ⟨gpu ++ "/set-server-url", .str gpu⟩ = .reply r → r.status ≠ 200 →
      (startup_event gpu backend).2 = .httpFail r.status) ∧
    (∀ e, backend ⟨gpu ++ "/set-server-url", .str gpu⟩ = .netErr e →
      (startup_event gpu backend).2 = .exnFail e) ∧
    (∀ b, startup_event "" b = ([], .skipped)) := by
  refine ⟨?_, ?_, ?_, fun b => rfl⟩
  · rw [startup_event]
    simp only [hg, if_neg, if_false, ite_false]
    cases hb : backend ⟨gpu ++ "/set-server-url", .str gpu⟩ <;> simp
  · intro r hb hs
    rw [startup_event]
    simp only [hg, if_neg, if_false, ite_false]
    rw [hb]
    simp [hs]
  · intro e hb
    rw [startup_event]
    simp only [hg, if_neg, if_false, ite_false]
    rw [hb]

/-- Concrete instance of `startup_registration`: a backend that refuses the
registration with HTTP 422 still yields the single call and a logged failure. -/
theorem startup_registration_witness :
    (startup_event "http://gpu.example" (fun _ => .reply ⟨422, "", none⟩)).1 =
      [⟨"http://gpu.example/set-server-url", .str "http://gpu.example"⟩] ∧
    (startup_event "http://gpu.example" (fun _ => .reply ⟨422, "", none⟩)).2 =
      .httpFail 422 := by
  have h := startup_registration "http://gpu.example"
    (fun _ => .reply ⟨422, "", none⟩) (by decide)
  exact ⟨h.1, h.2.1 ⟨422, "", none⟩ rfl (by decide)⟩

/-- Counterexample to claim C1 as stated: the backend builds `download_link`
from the `server_url` field carried by the request itself, never from the
registered global.  With `SERVER_URL` never registered (state `none`) the
request still succeeds and returns a link built from the request's field; and
with `SERVER_URL` registered as `http://reg.example`, a request carrying
`server_url = "http://req.example"` gets a link under `req`, not `reg`. -/
theorem download_link_counterexample :
    (generate_contract (fun _ _ _ _ _ => .ok "/tmp/contract.pdf") (fun fs _ _ => .ok fs)
        ⟨none, fun _ => none⟩
        ⟨"lease", "Alice", "Bob", "2024-01-01", "", "http://req.example"⟩).2 =
      .json 200 (.obj [("message", .str "문서가 생성되었습니다."),
                       ("download_link", .str "http://req.example/document/contract.pdf")]) ∧
    (generate_contract (fun _ _ _ _ _ => .ok "/tmp/contract.pdf") (fun fs _ _ => .ok fs)
        ⟨some "http://reg.example", fun _ => none⟩
        ⟨"lease", "Alice", "Bob", "2024-01-01", "", "http://req.example"⟩).2 =
      .json 200 (.obj [("message", .str "문서가 생성되었습니다."),
                       ("download_link", .str "http://req.example/document/contract.pdf")]) ∧
    ("http://req.example/document/contract.pdf" : String) ≠
      "http://reg.example/document/contract.pdf" :=
  ⟨rfl, rfl, by decide⟩

/-- Claim C1 (amended): for every backend `/generate-document` request whose
rendering and persistence stages succeed, the returned `download_link` equals
the `server_url` field carried by the request itself concatenated with
`/document/` and the stored file's name; the registered public address plays
no role, and absence of a registration does not make the request fail (the
`server_url` field is required by the request schema instead). -/
theorem download_link_from_request (render : Renderer) (move : Mover)
    (st : BackendState) (data : SContractRequest) (path : String) (fs' : FileSystem)
    (hr : render data.contract_type data.party_a data.party_b data.contract_date
            data.additional_info = .ok path)
    (hm : move st.fs path (get_document_path (basename path)) = .ok fs') :
    (generate_contract render move st data).2 =
      .json 200 (.obj [("message", .str "문서가 생성되었습니다."),
                       ("download_link",
                        .str (data.server_url ++ "/document/" ++ basename path))]) := by
  rw [generate_contract, hr]
  simp only [hm]

/-- Concrete instance of `download_link_from_request`, with an unregistered
state and a request carrying its own address. -/
theorem download_link_from_request_witness :
    (generate_contract (fun _ _ _ _ _ => .ok "/tmp/c.pdf") (fun fs _ _ => .ok fs)
        ⟨none, fun _ => none⟩
        ⟨"employment", "A", "B", "2024-02-02", "", "https://gw.example"⟩).2 =
      .json 200 (.obj [("message", .str "문서가 생성되었습니다."),
                       ("download_link", .str ("https://gw.example" ++ "/document/" ++
                          basename "/tmp/c.pdf"))]) :=
  download_link_from_request (fun _ _ _ _ _ => .ok "/tmp/c.pdf") (fun fs _ _ => .ok fs)
    ⟨none, fun _ => none⟩ ⟨"employment", "A", "B", "2024-02-02", "", "https://gw.example"⟩
    "/tmp/c.pdf" (fun _ => none) rfl rfl

/-- Behaviour of the `download_file` handler body (`src/server.py` lines
151-159) taken in isolation: HTTP 404 with a JSON `error` body when no file
of that name exists under the document-storage root, otherwise exactly the
stored bytes with content type `application/pdf`.  As registered, this route
is shadowed by the `StaticFiles` mount and never runs — the assembled app's
behaviour is `app_get_document`. -/
theorem download_file_behaviour (st : BackendState) (name : String) :
    (st.fs (get_document_path name) = none →
      download_file st name =
        .json 404 (.obj [("error", .str "파일이 존재하지 않습니다.")])) ∧
    (∀ bytes, st.fs (get_document_path name) = some bytes →
      download_file st name = .file bytes "application/pdf" name) := by
  constructor
  · intro h
    rw [download_file]
    simp only [h]
  · intro bytes h
    rw [download_file]
    simp only [h]

/-- Concrete instance of `download_file_behaviour`: one stored PDF
(`a.pdf`, bytes `%PDF`), one absent name — still describing the shadowed
handler body only. -/
theorem download_file_behaviour_witness :
    download_file
        ⟨none, fun p => if p = "document/a.pdf" then some [37, 80, 68, 70] else none⟩
        "a.pdf" = .file [37, 80, 68, 70] "application/pdf" "a.pdf" ∧
    download_file
        ⟨none, fun p => if p = "document/a.pdf" then some [37, 80, 68, 70] else none⟩
        "b.pdf" = .json 404 (.obj [("error", .str "파일이 존재하지 않습니다.")]) :=
  ⟨(download_file_behaviour _ "a.pdf").2 [37, 80, 68, 70] (by decide),
   (download_file_behaviour _ "b.pdf").1 (by decide)⟩

/-- Claim C7: fails on the assembled app.  At the failing input
`GET /document/missing.pdf` with an empty document root, first-match dispatch
hands the request to the `StaticFiles` mount (registered at `src/server.py`
line 50, before the line-151 route), which answers a plain-text 404 `Not
Found` carrying no JSON `error` field — while the shadowed `download_file`
handler, whose own body and docstring express the claimed behaviour, would
have answered with the JSON error envelope.  A present `.pdf` file is still
served by the mount as its exact bytes with `application/pdf`, so the
divergence is confined to the 404 shape. -/
theorem document_route_shadowed :
    app_get_document ⟨none, fun _ => none⟩ "missing.pdf" = .text 404 "Not Found" ∧
    isJsonErrorResponse (app_get_document ⟨none, fun _ => none⟩ "missing.pdf") = false ∧
    download_file ⟨none, fun _ => none⟩ "missing.pdf" =
      .json 404 (.obj [("error", .str "파일이 존재하지 않습니다.")]) ∧
    isJsonErrorResponse (download_file ⟨none, fun _ => none⟩ "missing.pdf") = true ∧
    app_get_document
        ⟨none, fun p => if p = "document/a.pdf" then some [37, 80, 68, 70] else none⟩
        "a.pdf" = .file [37, 80, 68, 70] "application/pdf" "a.pdf" :=
  ⟨rfl, rfl, rfl, rfl, rfl⟩

/-- Claim C9: a non-empty question whose retrieval call returns an empty
document set makes `/gpu_ask` answer with the defined "no data" message and
an empty sources list, as a 200 response with no error field. -/
theorem gpu_ask_no_data (retrieve : Retriever) (synthesize : Synthesizer)
    (q : String) (res : RetrievalResult)
    (hq : pyStrip q ≠ "") (hr : retrieve (pyStrip q) = .ok res)
    (hd : res.relevant_docs = []) :
    gpu_ask retrieve synthesize q =
      .json 200 (.obj [("answer", .str "📌 참고할 법률 데이터를 찾을 수 없습니다."),
                       ("sources", .arr [])]) ∧
    isErrorEnvelope (.obj [("answer", .str "📌 참고할 법률 데이터를 찾을 수 없습니다."),
                           ("sources", .arr [])]) = false := by
  refine ⟨?_, rfl⟩
  rw [gpu_ask]
  simp only [hq, if_neg, ite_false]
  rw [hr]
  simp [hd]

/-- Concrete instance of `gpu_ask_no_data`: a retriever finding nothing. -/
theorem gpu_ask_no_data_witness :
    gpu_ask (fun _ => .ok ⟨[], [], [], []⟩) (fun _ _ _ _ => .error "unused") "파산" =
      .json 200 (.obj [("answer", .str "📌 참고할 법률 데이터를 찾을 수 없습니다."),
                       ("sources", .arr [])]) :=
  (gpu_ask_no_data (fun _ => .ok ⟨[], [], [], []⟩) (fun _ _ _ _ => .error "unused")
    "파산" ⟨[], [], [], []⟩ (by decide) rfl rfl).1

/-- Response of `generate_contract` depends on the state only through the
document store, never through the registered `SERVER_URL`. -/
theorem generate_contract_resp_congr (render : Renderer) (move : Mover)
    (st₁ st₂ : BackendState) (h : st₁.fs = st₂.fs) (data : SContractRequest) :
    (generate_contract render move st₁ data).2 =
      (generate_contract render move st₂ data).2 := by
  rw [generate_contract, generate_contract, h]
  cases render data.contract_type data.party_a data.party_b data.contract_date
      data.additional_info with
  | error e => rfl
  | ok path =>
      simp only
      cases move st₂.fs path (get_document_path (basename path)) <;> rfl

/-- `download_file` depends on the state only through the document store. -/
theorem download_file_congr (st₁ st₂ : BackendState) (h : st₁.fs = st₂.fs)
    (name : String) : download_file st₁ name = download_file st₂ name := by
  rw [download_file, download_file, h]

/-- Claim C10: registering a public address has no observable effect beyond
the stored global and its acknowledgement: after any `/set-server-url` call
the document store is unchanged, the stored global holds the normalized
address, the acknowledgement message is returned, and the responses of
`/gpu_ask`, `/generate-document` and `/document/(file_name)` are identical to
what they would have been on the prior state (in particular, identical to the
never-registered state). -/
theorem set_server_url_frame (st : BackendState) (url : String)
    (retrieve : Retriever) (synthesize : Synthesizer) (render : Renderer)
    (move : Mover) (q : String) (data : SContractRequest) (name : String) :
    (ep_set_server_url st url).1.fs = st.fs ∧
    (ep_set_server_url st url).1.SERVER_URL =
      some (if pyStartsWith (pyStrip url) "http://" ||
               pyStartsWith (pyStrip url) "https://" then pyStrip url
            else "http://" ++ pyStrip url) ∧
    (ep_set_server_url st url).2 =
      .json 200 (.obj [("message", .str "SERVER_URL이 성공적으로 설정되었습니다.")]) ∧
    (ep_gpu_ask retrieve synthesize (ep_set_server_url st url).1 q).2 =
      (ep_gpu_ask retrieve synthesize st q).2 ∧
    (ep_generate_contract render move (ep_set_server_url st url).1 data).2 =
      (ep_generate_contract render move st data).2 ∧
    (ep_download_file (ep_set_server_url st url).1 name).2 =
      (ep_download_file st name).2 := by
  refine ⟨rfl, rfl, rfl, rfl, ?_, ?_⟩
  · exact generate_contract_resp_congr render move (ep_set_server_url st url).1 st
      rfl data
  · exact download_file_congr (ep_set_server_url st url).1 st rfl name

/-- Claim C8: error propagation policy.  Every forwarding handler's result is
either the backend's parsed HTTP-200 JSON body (full success) or a JSON
object with an `error` field — in particular a backend 200 reply whose body
is not valid JSON yields an error envelope, because `response.json()` raises
a `RequestException` subclass the handler catches.  Every backend pipeline
handler returns a JSON response whose body is either a success shape or an
error envelope.  All handlers are total Lean functions of their inputs and
oracles, mirroring that no exception escapes to the transport layer. -/
theorem error_envelope_policy :
    (∀ gpu backend q,
      isErrorEnvelope (ask_question gpu backend q).1 = true ∨
      ∃ r j, backend ⟨gpu ++ "/gpu_ask", .obj [("question", .str (pyStrip q))]⟩ =
          .reply r ∧ r.status = 200 ∧ r.json = some j ∧
          (ask_question gpu backend q).1 = j) ∧
    (∀ gpu env backend req,
      isErrorEnvelope (generate_document gpu env backend req).1 = true ∨
      ∃ r j, backend ⟨gpu ++ "/generate-document", contractPayload req env⟩ =
          .reply r ∧ r.status = 200 ∧ r.json = some j ∧
          (generate_document gpu env backend req).1 = j) ∧
    (∀ gpu backend q t, gpu ≠ "" → pyStrip q ≠ "" →
      backend ⟨gpu ++ "/gpu_ask", .obj [("question", .str (pyStrip q))]⟩ =
        .reply ⟨200, t, none⟩ →
      isErrorEnvelope (ask_question gpu backend q).1 = true) ∧
    (∀ retrieve synthesize q, ∃ s b,
      gpu_ask retrieve synthesize q = .json s b ∧
      (isErrorEnvelope b = true ∨ (s = 200 ∧ b.hasField "answer" = true))) ∧
    (∀ render move st data, ∃ s b,
      (generate_contract render move st data).2 = .json s b ∧
      (isErrorEnvelope b = true ∨ (s = 200 ∧ b.hasField "download_link" = true))) := by
  refine ⟨?_, ?_, ?_, ?_, ?_⟩
  · intro gpu backend q
    by_cases hq : pyStrip q = ""
    · left
      simp [ask_question, hq]
      rfl
    · by_cases hg : gpu = ""
      · left
        simp [ask_question, hq, hg]
        rfl
      · rw [ask_question]
        simp only [hq, hg, if_neg, if_false, ite_false]
        cases hb : backend ⟨gpu ++ "/gpu_ask", .obj [("question", .str (pyStrip q))]⟩ with
        | reply r =>
            by_cases hs : r.status = 200
            · cases hj : r.json with
              | some j => right; exact ⟨r, j, rfl, hs, hj, by simp [hs, hj]⟩
              | none =>
                  left
                  simp [hs, hj]
                  rfl
            · left
              simp only [hs, if_neg, if_false, ite_false]
              rfl
        | netErr e => left; rfl
  · intro gpu env backend req
    by_cases hg : gpu = ""
    · left
      simp [generate_document, hg]
      rfl
    · rw [generate_document]
      simp only [hg, if_neg, if_false, ite_false]
      cases hb : backend ⟨gpu ++ "/generate-document", contractPayload req env⟩ with
      | reply r =>
          by_cases hs : r.status = 200
          · cases hj : r.json with
            | some j => right; exact ⟨r, j, rfl, hs, hj, by simp [hs, hj]⟩
            | none =>
                left
                simp [hs, hj]
                rfl
          · left
            simp only [hs, if_neg, if_false, ite_false]
            rfl
      | netErr e => left; rfl
  · intro gpu backend q t hg hq hb
    rw [ask_question]
    simp only [hq, hg, if_neg, if_false, ite_false]
    rw [hb]
    rfl
  · intro retrieve synthesize q
    rw [gpu_ask]
    by_cases hq : pyStrip q = ""
    · refine ⟨400, .obj [("error", .str "질문을 입력하세요.")], ?_, Or.inl rfl⟩
      simp [hq]
    · simp only [hq, if_neg, ite_false]
      cases hr : retrieve (pyStrip q) with
      | error e =>
          exact ⟨500, .obj [("error", .str ("서버 내부 오류: " ++ e))], rfl, Or.inl rfl⟩
      | ok res =>
          by_cases hd : res.relevant_docs = []
          · refine ⟨200, .obj [("answer", .str "📌 참고할 법률 데이터를 찾을 수 없습니다."),
                               ("sources", .arr [])], ?_, Or.inr ⟨rfl, rfl⟩⟩
            simp [hd]
          · simp only [hd, if_neg, if_false, ite_false]
            cases hs : synthesize (pyStrip q) res.relevant_docs res.sources res.scores with
            | error e =>
                exact ⟨500, .obj [("error", .str ("서버 내부 오류: " ++ e))], rfl, Or.inl rfl⟩
            | ok response =>
                by_cases hresp : response = ""
                · refine ⟨500, .obj [("error",
                      .str "AI 모델이 유효한 답변을 생성하지 못했습니다.")], ?_, Or.inl rfl⟩
                  simp [hresp]
                · refine ⟨200, .obj [("answer", .str response),
                      ("sources", .arr (sourceEntries res.law_numbers res.sources
                        res.scores))], ?_, Or.inr ⟨rfl, rfl⟩⟩
                  simp [hresp]
  · intro render move st data
    rw [generate_contract]
    cases hr : render data.contract_type data.party_a data.party_b data.contract_date
        data.additional_info with
    | error e =>
        exact ⟨500, .obj [("error", .str ("서버 내부 오류: " ++ e))], rfl, Or.inl rfl⟩
    | ok path =>
        simp only
        cases hm : move st.fs path (get_document_path (basename path)) with
        | error e =>
            exact ⟨500, .obj [("error", .str ("서버 내부 오류: " ++ e))], rfl, Or.inl rfl⟩
        | ok fs' =>
            exact ⟨200, .obj [("message", .str "문서가 생성되었습니다."),
                ("download_link",
                 .str (data.server_url ++ "/document/" ++ basename path))],
              rfl, Or.inr ⟨rfl, rfl⟩⟩

/-- Concrete instance of `error_envelope_policy`: a backend replying HTTP 200
with a body that is not valid JSON still produces an error envelope. -/
theorem error_envelope_policy_witness :
    isErrorEnvelope (ask_question "http://gpu.example"
      (fun _ => .reply ⟨200, "<html>oops</html>", none⟩) "상속 문의").1 = true :=
  error_envelope_policy.2.2.1 "http://gpu.example"
    (fun _ => .reply ⟨200, "<html>oops</html>", none⟩) "상속 문의" "<html>oops</html>"
    (by decide) (by decide) rfl

end LawyerAi
